import Mathlib

/-!
Verification of the CQT arbitrage core (`src/arbitrage_core.rs`).

Shallow embedding conventions:
* Rust `f64` values are modelled as exact rationals (`ℚ`); the spec and the
  claims speak in exact real arithmetic.
* Rust unsigned integers (`u64`, `u128`, `U256`) are modelled as `Nat`; the
  magnitudes appearing in the code never approach the respective moduli.
* Rust strings that are inspected character by character (chain addresses)
  are modelled as `List Char`; `str::len` (a UTF-8 byte count) is modelled
  by `byteLen` below.  Other strings (network names, transaction hashes)
  are Lean `String`s.
* The three external collaborators (Trade Venue, Bridge Service, Chain
  Observer) are oracles carried in an `Env` record; the orchestrator
  additionally records the step trace it performs so that ordering claims
  can be stated.
-/

/-- UTF-8 byte size of one character, mirroring Rust's `str::len` accounting
(1 byte below U+0080, 2 below U+0800, 3 below U+10000, else 4). -/
def charUtf8Size (c : Char) : Nat :=
  if c.toNat ≤ 0x7F then 1
  else if c.toNat ≤ 0x7FF then 2
  else if c.toNat ≤ 0xFFFF then 3
  else 4

/-- Rust `str::len`: the UTF-8 byte length of a string. -/
def byteLen (s : List Char) : Nat := (s.map charUtf8Size).sum

/-- Rust `char::is_ascii_hexdigit`: `0-9`, `a-f` or `A-F` by code point. -/
def isAsciiHexdigit (c : Char) : Bool :=
  (48 ≤ c.toNat && c.toNat ≤ 57) ||
  (97 ≤ c.toNat && c.toNat ≤ 102) ||
  (65 ≤ c.toNat && c.toNat ≤ 70)

/-- Structure `PoolInfo` from `arbitrage_core.rs`. -/
structure PoolInfo where
  address : List Char
  network : String
  token0 : String
  token1 : String
  price : ℚ
  liquidity : Nat
  fee_tier : Nat
deriving DecidableEq

/-- Structure `ArbitrageOpportunity` from `arbitrage_core.rs`. -/
structure ArbitrageOpportunity where
  source_pool : PoolInfo
  target_pool : PoolInfo
  profit_potential : ℚ
  required_amount : ℚ
  execution_cost : ℚ
  net_profit : ℚ
  confidence : ℚ
  timestamp : Nat
deriving DecidableEq

/-- Structure `SecureTransaction` from `arbitrage_core.rs`; `to` holds the 40 hex
digits of the parsed structured address. -/
structure SecureTransaction where
  to_address : List Char
  value : Nat
  gas_limit : Nat
  gas_price : Nat
  data : List Nat
  nonce : Nat
deriving DecidableEq

/-- The configuration fields of `ArbitrageCore`. -/
structure ArbitrageCore where
  polygon_rpc : String
  base_rpc : String
  max_slippage : ℚ
  gas_multiplier : ℚ
deriving DecidableEq

/-- Constructor `ArbitrageCore::new`: fixes `max_slippage = 0.02` and
`gas_multiplier = 1.2`. -/
def ArbitrageCore.new (polygon_rpc base_rpc : String) : ArbitrageCore :=
  { polygon_rpc := polygon_rpc
    base_rpc := base_rpc
    max_slippage := 2/100
    gas_multiplier := 6/5 }

/-- Function `ArbitrageCore::is_valid_address`. -/
def is_valid_address (address : List Char) : Bool :=
  if !(decide (address.take 2 = ['0', 'x'])) || !(decide (byteLen address = 42)) then
    false
  else
    (address.drop 2).all isAsciiHexdigit

/-- Function `ArbitrageCore::calculate_price_impact`. -/
def calculate_price_impact (amount liquidity : ℚ) : ℚ :=
  if liquidity ≤ 0 then 1
  else amount / (liquidity + amount)

/-- Function `ArbitrageCore::calculate_optimal_amount`. -/
def calculate_optimal_amount (source_liquidity target_liquidity : Nat)
    (price_diff : ℚ) : ℚ :=
  let min_liquidity : ℚ := (min source_liquidity target_liquidity : Nat)
  let base_amount := min_liquidity * (1/100)
  let price_multiplier := max (min (price_diff * 10) 2) (1/2)
  base_amount * price_multiplier

/-- Errors produced by the execution flow (`Box<dyn Error>` messages in the
source, distinguished here by their message). -/
inductive ExecError
  | validationFailed
  | collaboratorFailure (msg : String)
  | confirmationTimeout
deriving DecidableEq

/-- Errors produced by `secure_transaction_builder`. -/
inductive TxError
  | invalidAddress
  | gasLimitTooLow
  | gasPriceTooHigh
deriving DecidableEq

/-- Function `ArbitrageCore::validate_opportunity`: every return in the source is an
`Ok`, mirrored here by an `Except` value that is always `.ok`. -/
def validate_opportunity (core : ArbitrageCore) (opportunity : ArbitrageOpportunity) :
    Except ExecError Bool :=
  if opportunity.net_profit ≤ 0 then .ok false
  else if opportunity.confidence < 7/10 then .ok false
  else if !is_valid_address opportunity.source_pool.address ||
          !is_valid_address opportunity.target_pool.address then .ok false
  else if calculate_price_impact opportunity.required_amount
          (opportunity.source_pool.liquidity : ℚ) > core.max_slippage then .ok false
  else .ok true

/-- Function `ArbitrageCore::estimate_gas_cost`; `(self.gas_multiplier * 100.0) as u64`
is the truncation `⌊gas_multiplier * 100⌋`, and `U256` division is Nat
division. -/
def estimate_gas_cost (core : ArbitrageCore) (network : String)
    (_transaction : SecureTransaction) : Except ExecError Nat :=
  let base_gas := 150000
  let cross_chain_gas := 300000
  let estimated_gas := if network = "polygon" then base_gas else base_gas + cross_chain_gas
  let safe_gas := estimated_gas * (⌊core.gas_multiplier * 100⌋).toNat / 100
  .ok safe_gas

/-- Modelled from the spec: `to.parse::<web3::types::Address>()` is external
library code not present in this repository; section 4.5 of the spec fixes its
behaviour as "AddressValidator-equivalent parsing into a structured address".
The structured address is the list of the 40 hex digits. -/
def parseAddress (to_str : List Char) : Option (List Char) :=
  if is_valid_address to_str then some (to_str.drop 2) else none

/-- Function `ArbitrageCore::secure_transaction_builder`. -/
def secure_transaction_builder (to_str : List Char) (value : Nat) (data : List Nat)
    (gas_limit gas_price nonce : Nat) : Except TxError SecureTransaction :=
  match parseAddress to_str with
  | none => .error .invalidAddress
  | some a =>
    if gas_limit < 21000 then .error .gasLimitTooLow
    else if gas_price > 500000000000 then .error .gasPriceTooHigh
    else .ok { to_address := a, value := value, gas_limit := gas_limit,
               gas_price := gas_price, data := data, nonce := nonce }

/-- The three external collaborators of the orchestrator (section 6 of the
spec): Trade Venue, Bridge Service and Chain Observer.  The observer is
indexed by the poll number, so "never reports finality" is the constantly
false observer. -/
structure Env where
  executeTrade : String → List Char → ℚ → String → Except ExecError String
  bridgeTokens : String → String → ℚ → Except ExecError String
  observer : Nat → Bool

/-- The five steps of `execute_cross_chain_arbitrage`, in source order. -/
inductive Step
  | validate
  | sourceTrade
  | bridge
  | confirmBridge
  | targetTrade
deriving DecidableEq

/-- The full successful step sequence of the orchestrator. -/
def fullSteps : List Step := [.validate, .sourceTrade, .bridge, .confirmBridge, .targetTrade]

/-- Sequencing of one orchestrator step: records the step as begun, stops
with the step's error when the call fails (Rust `?`), otherwise continues. -/
def stepCall {α β : Type} (s : Step) (r : Except ExecError α)
    (k : α → Except ExecError β × List Step) : Except ExecError β × List Step :=
  match r with
  | .error e => (.error e, [s])
  | .ok a => ((k a).1, s :: (k a).2)

/-- The loop of `ArbitrageCore::wait_for_confirmation`: while the elapsed
time is below the timeout, poll the observer, then sleep 10 seconds.
Returns the result together with the elapsed seconds at return and the
number of polls made. -/
def waitGo (observer : Nat → Bool) (timeout_seconds elapsed polls : Nat) :
    Except ExecError Unit × Nat × Nat :=
  if h : elapsed < timeout_seconds then
    if observer polls then (.ok (), elapsed, polls + 1)
    else waitGo observer timeout_seconds (elapsed + 10) (polls + 1)
  else (.error .confirmationTimeout, elapsed, polls)
termination_by timeout_seconds - elapsed
decreasing_by omega

/-- Function `ArbitrageCore::wait_for_confirmation`; the transaction hash is only
printed by the source, never consulted. -/
def wait_for_confirmation (observer : Nat → Bool) (_tx_hash : String)
    (timeout_seconds : Nat) : Except ExecError Unit × Nat × Nat :=
  waitGo observer timeout_seconds 0 0

/-- Function `ArbitrageCore::execute_cross_chain_arbitrage`, with the step trace it
performs recorded alongside the result. -/
def execute_cross_chain_arbitrage (core : ArbitrageCore) (env : Env)
    (opportunity : ArbitrageOpportunity) : Except ExecError String × List Step :=
  stepCall .validate
    (match validate_opportunity core opportunity with
     | .error e => .error e
     | .ok true => .ok ()
     | .ok false => .error .validationFailed) fun _ =>
  stepCall .sourceTrade
    (env.executeTrade opportunity.source_pool.network opportunity.source_pool.address
      opportunity.required_amount "sell") fun _source_tx_hash =>
  stepCall .bridge
    (env.bridgeTokens opportunity.source_pool.network opportunity.target_pool.network
      opportunity.required_amount) fun bridge_tx_hash =>
  stepCall .confirmBridge
    (wait_for_confirmation env.observer bridge_tx_hash 600).1 fun _ =>
  stepCall .targetTrade
    (env.executeTrade opportunity.target_pool.network opportunity.target_pool.address
      opportunity.required_amount "buy") fun target_tx_hash =>
  (.ok target_tx_hash, [])

/-- A syntactically valid sample address: `0x` followed by 40 `a`s. -/
def addrA : List Char := '0' :: 'x' :: List.replicate 40 'a'

/-- A second valid sample address: `0x` followed by 40 `b`s. -/
def addrB : List Char := '0' :: 'x' :: List.replicate 40 'b'

/-- A default-configured engine. -/
def coreDefault : ArbitrageCore := ArbitrageCore.new "polygon_rpc" "base_rpc"

/-- The end-to-end sample opportunity of section 8 of the spec. -/
def posOpp : ArbitrageOpportunity :=
  { source_pool := { address := addrA, network := "polygon", token0 := "CQT", token1 := "WETH",
                     price := 1, liquidity := 100000, fee_tier := 3000 }
    target_pool := { address := addrB, network := "base", token0 := "CQT", token1 := "WETH",
                     price := 1, liquidity := 80000, fee_tier := 3000 }
    profit_potential := 11
    required_amount := 500
    execution_cost := 1
    net_profit := 10
    confidence := 19/20
    timestamp := 0 }

/-- Variant of `posOpp` with zero net profit: rejected by the validator. -/
def zeroOpp : ArbitrageOpportunity :=
  { posOpp with net_profit := 0 }

/-- An opportunity with negative `required_amount` that nevertheless passes
every check of `validate_opportunity`. -/
def negOpp : ArbitrageOpportunity :=
  { posOpp with required_amount := -1, net_profit := 1, confidence := 9/10 }

/-- Collaborators that always succeed and report finality at once. -/
def okEnv : Env :=
  { executeTrade := fun _ _ _ _ => .ok "0xtrade"
    bridgeTokens := fun _ _ _ => .ok "0xbridge"
    observer := fun _ => true }

/-- Collaborators whose trade venue is down. -/
def errEnv : Env :=
  { executeTrade := fun _ _ _ _ => .error (.collaboratorFailure "venue down")
    bridgeTokens := fun _ _ _ => .ok "0xbridge"
    observer := fun _ => true }

/-- A sample transaction record. -/
def sampleTx : SecureTransaction :=
  { to_address := List.replicate 40 'a', value := 0, gas_limit := 21000,
    gas_price := 1, data := [], nonce := 0 }

/-- Claim C5: `calculate_price_impact` returns exactly 1 whenever
`liquidity ≤ 0`, and exactly `amount / (liquidity + amount)` whenever
`liquidity > 0`; being a Lean function it is pure and total. -/
theorem C5_price_impact_cases (amount liquidity : ℚ) :
    (liquidity ≤ 0 → calculate_price_impact amount liquidity = 1) ∧
    (0 < liquidity →
      calculate_price_impact amount liquidity = amount / (liquidity + amount)) := by
  constructor
  · intro h
    simp [calculate_price_impact, h]
  · intro h
    simp [calculate_price_impact, not_le.mpr h]

/-- Claim C5 witness: the two cases evaluated at concrete inputs. -/
theorem C5_price_impact_cases_witness :
    calculate_price_impact 5 (-2) = 1 ∧ calculate_price_impact 5 20 = 5 / (20 + 5) :=
  ⟨(C5_price_impact_cases 5 (-2)).1 (by decide),
   (C5_price_impact_cases 5 20).2 (by decide)⟩

/-- Claim C6: for positive amount and liquidity the price impact lies
strictly between 0 and 1, is strictly increasing in the amount and strictly
decreasing in the liquidity. -/
theorem C6_price_impact_bounds_monotone :
    (∀ amount liquidity : ℚ, 0 < amount → 0 < liquidity →
      0 < calculate_price_impact amount liquidity ∧
      calculate_price_impact amount liquidity < 1) ∧
    (∀ a₁ a₂ liquidity : ℚ, 0 < a₁ → a₁ < a₂ → 0 < liquidity →
      calculate_price_impact a₁ liquidity < calculate_price_impact a₂ liquidity) ∧
    (∀ amount l₁ l₂ : ℚ, 0 < amount → 0 < l₁ → l₁ < l₂ →
      calculate_price_impact amount l₂ < calculate_price_impact amount l₁) := by
  refine ⟨?_, ?_, ?_⟩
  · intro a l ha hl
    rw [calculate_price_impact, if_neg (not_le.mpr hl)]
    constructor
    · exact div_pos ha (by linarith)
    · rw [div_lt_one (by linarith)]
      linarith
  · intro a₁ a₂ l h₁ h₁₂ hl
    rw [calculate_price_impact, if_neg (not_le.mpr hl),
        calculate_price_impact, if_neg (not_le.mpr hl)]
    rw [div_lt_div_iff₀ (by linarith) (by linarith)]
    nlinarith
  · intro a l₁ l₂ ha h₁ h₁₂
    have h₂ : (0:ℚ) < l₂ := lt_trans h₁ h₁₂
    rw [calculate_price_impact, if_neg (not_le.mpr h₂),
        calculate_price_impact, if_neg (not_le.mpr h₁)]
    exact div_lt_div_of_pos_left ha (by linarith) (by linarith)

/-- Claim C6 witness: bounds and both monotonicities evaluated at concrete
inputs. -/
theorem C6_price_impact_bounds_monotone_witness :
    (0 < calculate_price_impact 5 20 ∧ calculate_price_impact 5 20 < 1) ∧
    calculate_price_impact 5 20 < calculate_price_impact 6 20 ∧
    calculate_price_impact 5 30 < calculate_price_impact 5 20 :=
  ⟨C6_price_impact_bounds_monotone.1 5 20 (by decide) (by decide),
   C6_price_impact_bounds_monotone.2.1 5 6 20 (by decide) (by decide) (by decide),
   C6_price_impact_bounds_monotone.2.2 5 20 30 (by decide) (by decide) (by decide)⟩

/-- Claim C7: the optimal amount is `0.01 * min(s,t)` scaled by
`clamp(price_diff * 10, 0.5, 2)`, hence always within
`[0.5 * 0.01 * min(s,t), 2 * 0.01 * min(s,t)]`. -/
theorem C7_optimal_amount_clamp (s t : Nat) (price_diff : ℚ) :
    calculate_optimal_amount s t price_diff =
      ((min s t : Nat) : ℚ) * (1/100) * (max (1/2) (min (price_diff * 10) 2)) ∧
    (1/2) * ((1/100) * ((min s t : Nat) : ℚ)) ≤ calculate_optimal_amount s t price_diff ∧
    calculate_optimal_amount s t price_diff ≤ 2 * ((1/100) * ((min s t : Nat) : ℚ)) := by
  have hdef : calculate_optimal_amount s t price_diff =
      ((min s t : Nat) : ℚ) * (1/100) * (max (min (price_diff * 10) 2) (1/2)) := rfl
  have hmin : (0:ℚ) ≤ ((min s t : Nat) : ℚ) := Nat.cast_nonneg _
  have hm1 : (1/2 : ℚ) ≤ max (min (price_diff * 10) 2) (1/2) := le_max_right _ _
  have hm2 : max (min (price_diff * 10) 2) (1/2) ≤ 2 :=
    max_le (min_le_right _ _) (by norm_num)
  refine ⟨by rw [hdef, max_comm], ?_, ?_⟩
  · rw [hdef]
    nlinarith
  · rw [hdef]
    nlinarith

/-- An ASCII hex digit occupies one UTF-8 byte. -/
theorem charUtf8Size_of_hexdigit {c : Char} (h : isAsciiHexdigit c = true) :
    charUtf8Size c = 1 := by
  rw [isAsciiHexdigit] at h
  simp only [Bool.or_eq_true, Bool.and_eq_true, decide_eq_true_eq] at h
  rw [charUtf8Size, if_pos (by omega)]

/-- A list of ASCII hex digits has as many UTF-8 bytes as characters. -/
theorem byteLen_of_all_hexdigit {t : List Char} (h : t.all isAsciiHexdigit = true) :
    byteLen t = t.length := by
  induction t with
  | nil => rfl
  | cons c cs ih =>
    rw [List.all_cons, Bool.and_eq_true] at h
    have hc : charUtf8Size c = 1 := charUtf8Size_of_hexdigit h.1
    have hcs : byteLen cs = cs.length := ih h.2
    rw [byteLen, List.map_cons, List.sum_cons, hc]
    rw [byteLen] at hcs
    rw [hcs, List.length_cons]
    omega

/-- Claim C9: `is_valid_address` accepts a string exactly when it is the
two-character prefix `0x` followed by exactly 40 case-insensitive hex
digits; it is a total boolean function on arbitrary (also non-ASCII)
strings, the length check counting UTF-8 bytes as Rust `str::len` does. -/
theorem C9_is_valid_address_iff (s : List Char) :
    is_valid_address s = true ↔
      ∃ t, s = '0' :: 'x' :: t ∧ t.length = 40 ∧ ∀ c ∈ t, isAsciiHexdigit c = true := by
  constructor
  · intro h
    rw [is_valid_address] at h
    split at h
    · exact absurd h (by simp)
    · rename_i hcond
      simp only [Bool.or_eq_true, Bool.not_eq_true', decide_eq_false_iff_not, not_or,
        not_not] at hcond
      obtain ⟨htake, hlen⟩ := hcond
      have hs : s = '0' :: 'x' :: s.drop 2 := by
        conv_lhs => rw [← List.take_append_drop 2 s]
        rw [htake]
        rfl
      refine ⟨s.drop 2, hs, ?_, ?_⟩
      · have hbl : byteLen (s.drop 2) = (s.drop 2).length := byteLen_of_all_hexdigit h
        have : byteLen s = 2 + byteLen (s.drop 2) := by
          conv_lhs => rw [hs]
          rw [byteLen, List.map_cons, List.map_cons, List.sum_cons, List.sum_cons]
          rw [show charUtf8Size '0' = 1 from rfl, show charUtf8Size 'x' = 1 from rfl]
          rw [byteLen]
          omega
        omega
      · exact fun c hc => List.all_eq_true.mp h c hc
  · rintro ⟨t, rfl, hlen, hhex⟩
    have hall : t.all isAsciiHexdigit = true := List.all_eq_true.mpr hhex
    have hbl : byteLen t = t.length := byteLen_of_all_hexdigit hall
    rw [is_valid_address]
    have hbyte : byteLen ('0' :: 'x' :: t) = 42 := by
      rw [byteLen, List.map_cons, List.map_cons, List.sum_cons, List.sum_cons]
      rw [show charUtf8Size '0' = 1 from rfl, show charUtf8Size 'x' = 1 from rfl]
      rw [byteLen] at hbl
      omega
    rw [if_neg]
    · exact hall
    · simp [hbyte]

/-- Claim C9 witness: a well-formed address is accepted; two malformed ones
(wrong prefix, wrong length) are obtained from the contrapositive. -/
theorem C9_is_valid_address_iff_witness :
    is_valid_address addrA = true :=
  (C9_is_valid_address_iff addrA).mpr
    ⟨List.replicate 40 'a', rfl, by simp,
     fun c hc => by rw [List.eq_of_mem_replicate hc]; rfl⟩

/-- Lemma: `validate_opportunity` accepts exactly when the four checks of
section 4.6 of the spec all hold. -/
theorem validate_eq_ok_true_iff (core : ArbitrageCore) (opp : ArbitrageOpportunity) :
    validate_opportunity core opp = .ok true ↔
      (0 < opp.net_profit ∧ 7/10 ≤ opp.confidence ∧
       is_valid_address opp.source_pool.address = true ∧
       is_valid_address opp.target_pool.address = true ∧
       calculate_price_impact opp.required_amount (opp.source_pool.liquidity : ℚ) ≤
         core.max_slippage) := by
  rw [validate_opportunity]
  split_ifs with h1 h2 h3 h4
  · constructor
    · intro h
      exact absurd h (by simp)
    · rintro ⟨hnp, -⟩
      exact absurd h1 (not_le.mpr hnp)
  · constructor
    · intro h
      exact absurd h (by simp)
    · rintro ⟨-, hconf, -⟩
      exact absurd h2 (not_lt.mpr hconf)
  · constructor
    · intro h
      exact absurd h (by simp)
    · rintro ⟨-, -, hs, ht, -⟩
      simp [hs, ht] at h3
  · constructor
    · intro h
      exact absurd h (by simp)
    · rintro ⟨-, -, -, -, himp⟩
      exact absurd h4 (not_lt.mpr himp)
  · simp only [Bool.or_eq_true, Bool.not_eq_true'] at h3
    push_neg at h3
    exact ⟨fun _ => ⟨not_le.mp h1, not_lt.mp h2,
      Bool.not_eq_false _ ▸ h3.1, Bool.not_eq_false _ ▸ h3.2, not_lt.mp h4⟩,
      fun _ => rfl⟩

/-- Lemma: `validate_opportunity` never returns an error. -/
theorem validate_total (core : ArbitrageCore) (opp : ArbitrageOpportunity) :
    validate_opportunity core opp = .ok true ∨
    validate_opportunity core opp = .ok false := by
  rw [validate_opportunity]
  split_ifs <;> simp

/-- Claim C2: with the default 0.02 slippage threshold,
`validate_opportunity` returns `Ok(true)` exactly when net profit is
positive, confidence is at least 0.7, both pool addresses are
syntactically valid and the price impact of the required amount against
the source pool's liquidity is at most 0.02; every other outcome is
`Ok(false)` — the function never returns an error. -/
theorem C2_validate_opportunity (p b : String) (opp : ArbitrageOpportunity) :
    (validate_opportunity (ArbitrageCore.new p b) opp = .ok true ↔
      (0 < opp.net_profit ∧ 7/10 ≤ opp.confidence ∧
       is_valid_address opp.source_pool.address = true ∧
       is_valid_address opp.target_pool.address = true ∧
       calculate_price_impact opp.required_amount (opp.source_pool.liquidity : ℚ) ≤
         2/100)) ∧
    (validate_opportunity (ArbitrageCore.new p b) opp = .ok true ∨
     validate_opportunity (ArbitrageCore.new p b) opp = .ok false) := by
  constructor
  · have h := validate_eq_ok_true_iff (ArbitrageCore.new p b) opp
    simpa [ArbitrageCore.new] using h
  · exact validate_total _ _

/-- Claim C2 witness: the spec's sample opportunity is accepted. -/
theorem C2_validate_opportunity_witness :
    validate_opportunity (ArbitrageCore.new "polygon_rpc" "base_rpc") posOpp = .ok true := by
  refine (C2_validate_opportunity "polygon_rpc" "base_rpc" posOpp).1.mpr
    ⟨by norm_num [posOpp], by norm_num [posOpp], ?_, ?_, ?_⟩
  · simp only [posOpp]
    decide
  · simp only [posOpp]
    decide
  · simp only [posOpp]
    rw [calculate_price_impact, if_neg (by norm_num)]
    norm_num

/-- Claim C10: an opportunity with negative `required_amount` can pass
`validate_opportunity`: no check constrains the sign of the amount, and a
negative amount makes the computed price impact negative, hence below the
slippage ceiling. -/
theorem C10_negative_amount_accepted :
    ∃ opp : ArbitrageOpportunity, opp.required_amount < 0 ∧
      validate_opportunity (ArbitrageCore.new "polygon_rpc" "base_rpc") opp = .ok true := by
  refine ⟨negOpp, by norm_num [negOpp, posOpp], ?_⟩
  refine (validate_eq_ok_true_iff _ _).mpr
    ⟨by norm_num [negOpp, posOpp], by norm_num [negOpp, posOpp], ?_, ?_, ?_⟩
  · simp only [negOpp, posOpp]
    decide
  · simp only [negOpp, posOpp]
    decide
  · simp only [negOpp, posOpp]
    rw [calculate_price_impact, if_neg (by norm_num), ArbitrageCore.new]
    norm_num

/-- Claim C4: `secure_transaction_builder` fails with the invalid-address
error exactly when `to` fails address parsing; otherwise with
`GasLimitTooLow` exactly when the gas limit is below 21000 (21000 itself
passing); otherwise with `GasPriceTooHigh` exactly when the gas price
exceeds 500·10⁹ (the ceiling itself passing); otherwise it returns the
transaction with all fields copied verbatim except the parsed address. -/
theorem C4_transaction_builder (to_str : List Char) (value : Nat) (data : List Nat)
    (gas_limit gas_price nonce : Nat) :
    (is_valid_address to_str = false →
      secure_transaction_builder to_str value data gas_limit gas_price nonce =
        .error .invalidAddress) ∧
    (is_valid_address to_str = true → gas_limit < 21000 →
      secure_transaction_builder to_str value data gas_limit gas_price nonce =
        .error .gasLimitTooLow) ∧
    (is_valid_address to_str = true → 21000 ≤ gas_limit → 500000000000 < gas_price →
      secure_transaction_builder to_str value data gas_limit gas_price nonce =
        .error .gasPriceTooHigh) ∧
    (is_valid_address to_str = true → 21000 ≤ gas_limit → gas_price ≤ 500000000000 →
      secure_transaction_builder to_str value data gas_limit gas_price nonce =
        .ok { to_address := to_str.drop 2, value := value, gas_limit := gas_limit,
              gas_price := gas_price, data := data, nonce := nonce }) := by
  refine ⟨?_, ?_, ?_, ?_⟩
  · intro h
    rw [secure_transaction_builder, parseAddress, if_neg (by simp [h])]
  · intro h hlim
    rw [secure_transaction_builder, parseAddress, if_pos h]
    simp only []
    rw [if_pos hlim]
  · intro h hlim hpr
    rw [secure_transaction_builder, parseAddress, if_pos h]
    simp only []
    rw [if_neg (not_lt.mpr hlim), if_pos hpr]
  · intro h hlim hpr
    rw [secure_transaction_builder, parseAddress, if_pos h]
    simp only []
    rw [if_neg (not_lt.mpr hlim), if_neg (not_lt.mpr hpr)]

/-- Claim C4 witness: all four cases at concrete inputs, including both
boundaries (gas limit 20999 versus 21000, gas price at versus one above the
ceiling). -/
theorem C4_transaction_builder_witness :
    secure_transaction_builder ['0', 'x'] 0 [] 21000 1 0 = .error .invalidAddress ∧
    secure_transaction_builder addrA 0 [] 20999 1 0 = .error .gasLimitTooLow ∧
    secure_transaction_builder addrA 0 [] 21000 500000000001 0 = .error .gasPriceTooHigh ∧
    secure_transaction_builder addrA 5 [1, 2] 21000 500000000000 7 =
      .ok { to_address := addrA.drop 2, value := 5, gas_limit := 21000,
            gas_price := 500000000000, data := [1, 2], nonce := 7 } :=
  ⟨(C4_transaction_builder ['0', 'x'] 0 [] 21000 1 0).1 (by decide),
   (C4_transaction_builder addrA 0 [] 20999 1 0).2.1 (by decide) (by decide),
   (C4_transaction_builder addrA 0 [] 21000 500000000001 0).2.2.1
     (by decide) (by decide) (by decide),
   (C4_transaction_builder addrA 5 [1, 2] 21000 500000000000 7).2.2.2
     (by decide) (by decide) (by decide)⟩

/-- Claim C8: with the default 1.2 multiplier the gas estimate is
`150000 * 120 / 100 = 180000` on "polygon" and
`(150000 + 300000) * 120 / 100 = 540000` on any other network, the
multiplier applied as an integer percentage in exact integer arithmetic;
the estimate is never zero. -/
theorem C8_gas_estimate (p b network : String) (tx : SecureTransaction) :
    (network = "polygon" →
      estimate_gas_cost (ArbitrageCore.new p b) network tx = .ok (150000 * 120 / 100)) ∧
    (network ≠ "polygon" →
      estimate_gas_cost (ArbitrageCore.new p b) network tx =
        .ok ((150000 + 300000) * 120 / 100)) ∧
    (∀ n, estimate_gas_cost (ArbitrageCore.new p b) network tx = .ok n → 0 < n) := by
  have hfloor : (⌊(ArbitrageCore.new p b).gas_multiplier * 100⌋).toNat = 120 := by
    have h1 : ((ArbitrageCore.new p b).gas_multiplier * 100 : ℚ) = ((120 : ℤ) : ℚ) := by
      norm_num [ArbitrageCore.new]
    rw [h1, Int.floor_intCast]
    rfl
  refine ⟨?_, ?_, ?_⟩
  · intro h
    simp only [estimate_gas_cost, hfloor, if_pos h]
  · intro h
    simp only [estimate_gas_cost, hfloor, if_neg h]
  · intro n hn
    by_cases h : network = "polygon"
    · simp only [estimate_gas_cost, hfloor, if_pos h, Except.ok.injEq] at hn
      omega
    · simp only [estimate_gas_cost, hfloor, if_neg h, Except.ok.injEq] at hn
      omega

/-- Claim C8 witness: the two networks of the spec's scenario, and the
strict positivity of the cross-chain estimate. -/
theorem C8_gas_estimate_witness :
    estimate_gas_cost coreDefault "polygon" sampleTx = .ok 180000 ∧
    estimate_gas_cost coreDefault "base" sampleTx = .ok 540000 ∧
    (0 : Nat) < 540000 :=
  ⟨(C8_gas_estimate "polygon_rpc" "base_rpc" "polygon" sampleTx).1 rfl,
   (C8_gas_estimate "polygon_rpc" "base_rpc" "base" sampleTx).2.1 (by decide),
   (C8_gas_estimate "polygon_rpc" "base_rpc" "base" sampleTx).2.2 540000
     ((C8_gas_estimate "polygon_rpc" "base_rpc" "base" sampleTx).2.1 (by decide))⟩

/-- Orchestrator evaluation: a rejected opportunity stops the flow at the
validation step with the validation-failed error. -/
theorem exec_eq_of_val_false (core : ArbitrageCore) (env : Env) (opp : ArbitrageOpportunity)
    (hv : validate_opportunity core opp = .ok false) :
    execute_cross_chain_arbitrage core env opp = (.error .validationFailed, [.validate]) := by
  rw [execute_cross_chain_arbitrage, hv]
  rfl

/-- Orchestrator evaluation: a failing source trade stops the flow after
the source-trade step with the trade's error. -/
theorem exec_eq_of_src_error (core : ArbitrageCore) (env : Env) (opp : ArbitrageOpportunity)
    (e : ExecError)
    (hv : validate_opportunity core opp = .ok true)
    (hs : env.executeTrade opp.source_pool.network opp.source_pool.address
      opp.required_amount "sell" = .error e) :
    execute_cross_chain_arbitrage core env opp = (.error e, [.validate, .sourceTrade]) := by
  rw [execute_cross_chain_arbitrage, hv, hs]
  rfl

/-- Orchestrator evaluation: a failing bridge call stops the flow after the
bridge step with the bridge's error. -/
theorem exec_eq_of_bridge_error (core : ArbitrageCore) (env : Env)
    (opp : ArbitrageOpportunity) (e : ExecError) (s_tx : String)
    (hv : validate_opportunity core opp = .ok true)
    (hs : env.executeTrade opp.source_pool.network opp.source_pool.address
      opp.required_amount "sell" = .ok s_tx)
    (hb : env.bridgeTokens opp.source_pool.network opp.target_pool.network
      opp.required_amount = .error e) :
    execute_cross_chain_arbitrage core env opp =
      (.error e, [.validate, .sourceTrade, .bridge]) := by
  rw [execute_cross_chain_arbitrage, hv, hs, hb]
  rfl

/-- Orchestrator evaluation: a failing confirmation wait stops the flow
after the confirmation step with that error. -/
theorem exec_eq_of_confirm_error (core : ArbitrageCore) (env : Env)
    (opp : ArbitrageOpportunity) (e : ExecError) (s_tx b_tx : String)
    (hv : validate_opportunity core opp = .ok true)
    (hs : env.executeTrade opp.source_pool.network opp.source_pool.address
      opp.required_amount "sell" = .ok s_tx)
    (hb : env.bridgeTokens opp.source_pool.network opp.target_pool.network
      opp.required_amount = .ok b_tx)
    (hc : (wait_for_confirmation env.observer b_tx 600).1 = .error e) :
    execute_cross_chain_arbitrage core env opp =
      (.error e, [.validate, .sourceTrade, .bridge, .confirmBridge]) := by
  rw [execute_cross_chain_arbitrage, hv, hs, hb]
  simp only [stepCall]
  rw [hc]

/-- Orchestrator evaluation: a failing target trade stops the flow after
the target-trade step with that error. -/
theorem exec_eq_of_target_error (core : ArbitrageCore) (env : Env)
    (opp : ArbitrageOpportunity) (e : ExecError) (s_tx b_tx : String)
    (hv : validate_opportunity core opp = .ok true)
    (hs : env.executeTrade opp.source_pool.network opp.source_pool.address
      opp.required_amount "sell" = .ok s_tx)
    (hb : env.bridgeTokens opp.source_pool.network opp.target_pool.network
      opp.required_amount = .ok b_tx)
    (hc : (wait_for_confirmation env.observer b_tx 600).1 = .ok ())
    (ht : env.executeTrade opp.target_pool.network opp.target_pool.address
      opp.required_amount "buy" = .error e) :
    execute_cross_chain_arbitrage core env opp = (.error e, fullSteps) := by
  rw [execute_cross_chain_arbitrage, hv, hs, hb]
  simp only [stepCall]
  rw [hc, ht]
  rfl

/-- Orchestrator evaluation: when every step succeeds the flow returns the
target-trade reference after the full step sequence. -/
theorem exec_eq_of_all_ok (core : ArbitrageCore) (env : Env)
    (opp : ArbitrageOpportunity) (s_tx b_tx t_tx : String)
    (hv : validate_opportunity core opp = .ok true)
    (hs : env.executeTrade opp.source_pool.network opp.source_pool.address
      opp.required_amount "sell" = .ok s_tx)
    (hb : env.bridgeTokens opp.source_pool.network opp.target_pool.network
      opp.required_amount = .ok b_tx)
    (hc : (wait_for_confirmation env.observer b_tx 600).1 = .ok ())
    (ht : env.executeTrade opp.target_pool.network opp.target_pool.address
      opp.required_amount "buy" = .ok t_tx) :
    execute_cross_chain_arbitrage core env opp = (.ok t_tx, fullSteps) := by
  rw [execute_cross_chain_arbitrage, hv, hs, hb]
  simp only [stepCall]
  rw [hc, ht]
  rfl

/-- The first step of every flow is validation and the trace is never
empty. -/
theorem exec_trace_ne_nil (core : ArbitrageCore) (env : Env) (opp : ArbitrageOpportunity) :
    (execute_cross_chain_arbitrage core env opp).2 ≠ [] := by
  rcases validate_total core opp with hv | hv
  · rw [execute_cross_chain_arbitrage, hv]
    simp [stepCall.eq_def]
  · rw [exec_eq_of_val_false core env opp hv]
    simp

/-- The step trace of every flow is a prefix of the full step sequence:
steps happen in source order and never after a failure. -/
theorem exec_trace_ordered (core : ArbitrageCore) (env : Env) (opp : ArbitrageOpportunity) :
    (execute_cross_chain_arbitrage core env opp).2 <+: fullSteps := by
  rcases validate_total core opp with hv | hv
  · rcases hs : env.executeTrade opp.source_pool.network opp.source_pool.address
        opp.required_amount "sell" with e | s_tx
    · rw [exec_eq_of_src_error core env opp e hv hs]
      exact ⟨_, rfl⟩
    · rcases hb : env.bridgeTokens opp.source_pool.network opp.target_pool.network
          opp.required_amount with e | b_tx
      · rw [exec_eq_of_bridge_error core env opp e s_tx hv hs hb]
        exact ⟨_, rfl⟩
      · rcases hc : (wait_for_confirmation env.observer b_tx 600).1 with e | u
        · rw [exec_eq_of_confirm_error core env opp e s_tx b_tx hv hs hb hc]
          exact ⟨_, rfl⟩
        · rcases ht : env.executeTrade opp.target_pool.network opp.target_pool.address
              opp.required_amount "buy" with e | t_tx
          · rw [exec_eq_of_target_error core env opp e s_tx b_tx hv hs hb hc ht]
          · rw [exec_eq_of_all_ok core env opp s_tx b_tx t_tx hv hs hb hc ht]
  · rw [exec_eq_of_val_false core env opp hv]
    exact ⟨_, rfl⟩

/-- A successful flow result is the target-trade reference, with the full
trace performed. -/
theorem exec_ok_inv (core : ArbitrageCore) (env : Env) (opp : ArbitrageOpportunity)
    (tx : String) (h : (execute_cross_chain_arbitrage core env opp).1 = .ok tx) :
    env.executeTrade opp.target_pool.network opp.target_pool.address
      opp.required_amount "buy" = .ok tx ∧
    (execute_cross_chain_arbitrage core env opp).2 = fullSteps := by
  rcases validate_total core opp with hv | hv
  · rcases hs : env.executeTrade opp.source_pool.network opp.source_pool.address
        opp.required_amount "sell" with e | s_tx
    · rw [exec_eq_of_src_error core env opp e hv hs] at h
      cases h
    · rcases hb : env.bridgeTokens opp.source_pool.network opp.target_pool.network
          opp.required_amount with e | b_tx
      · rw [exec_eq_of_bridge_error core env opp e s_tx hv hs hb] at h
        cases h
      · rcases hc : (wait_for_confirmation env.observer b_tx 600).1 with e | u
        · rw [exec_eq_of_confirm_error core env opp e s_tx b_tx hv hs hb hc] at h
          cases h
        · rcases ht : env.executeTrade opp.target_pool.network opp.target_pool.address
              opp.required_amount "buy" with e | t_tx
          · rw [exec_eq_of_target_error core env opp e s_tx b_tx hv hs hb hc ht] at h
            cases h
          · have hall := exec_eq_of_all_ok core env opp s_tx b_tx t_tx hv hs hb hc ht
            rw [hall] at h
            obtain rfl : t_tx = tx := by
              simpa using h
            exact ⟨rfl, by rw [hall]⟩
  · rw [exec_eq_of_val_false core env opp hv] at h
    cases h

/-- With an observer that never reports finality, the wait loop runs to the
deadline: starting from elapsed time `e`, after `n` further sleeps it ends
in the timeout error with `10 * n` more seconds elapsed and `n` more polls
made. -/
theorem waitGo_never_eq (obs : Nat → Bool) (hobs : ∀ k, obs k = false) :
    ∀ (n T e p : Nat), T ≤ e + 10 * n → (∀ m, m < n → e + 10 * m < T) →
      waitGo obs T e p = (.error .confirmationTimeout, e + 10 * n, p + n) := by
  intro n
  induction n with
  | zero =>
    intro T e p h1 _h2
    rw [waitGo, dif_neg (by omega)]
    simp
  | succ k ih =>
    intro T e p h1 h2
    have he : e < T := by
      have := h2 0 (by omega)
      omega
    rw [waitGo, dif_pos he, if_neg (by simp [hobs])]
    have hrec := ih T (e + 10) (p + 1) (by omega)
      (fun m hm => by have := h2 (m + 1) (by omega); omega)
    rw [hrec]
    have h3 : e + 10 + 10 * k = e + 10 * (k + 1) := by ring
    have h4 : p + 1 + k = p + (k + 1) := by ring
    rw [h3, h4]

/-- The wait loop only reports the timeout error once the elapsed time has
reached the deadline — never before. -/
theorem waitGo_timeout_le (obs : Nat → Bool) :
    ∀ (fuel T e p : Nat), T - e ≤ 10 * fuel →
      (waitGo obs T e p).1 = .error .confirmationTimeout →
      T ≤ (waitGo obs T e p).2.1 := by
  intro fuel
  induction fuel with
  | zero =>
    intro T e p hle _hres
    rw [waitGo, dif_neg (by omega)]
    show T ≤ e
    omega
  | succ n ih =>
    intro T e p hle hres
    by_cases he : e < T
    · rw [waitGo, dif_pos he] at hres ⊢
      cases hob : obs p
      · rw [if_neg (by simp [hob])] at hres ⊢
        exact ih T (e + 10) (p + 1) (by omega) hres
      · rw [if_pos (by simp [hob])] at hres
        simp at hres
    · rw [waitGo, dif_neg he]
      show T ≤ e
      omega

/-- Lemma: `validate_opportunity` accepts the spec's sample opportunity. -/
theorem validate_posOpp : validate_opportunity coreDefault posOpp = .ok true := by
  refine (validate_eq_ok_true_iff _ _).mpr
    ⟨by norm_num [posOpp], by norm_num [posOpp], ?_, ?_, ?_⟩
  · simp only [posOpp]
    decide
  · simp only [posOpp]
    decide
  · simp only [posOpp]
    rw [calculate_price_impact, if_neg (by norm_num)]
    norm_num [coreDefault, ArbitrageCore.new]

/-- Lemma: `validate_opportunity` rejects the zero-profit sample opportunity. -/
theorem validate_zeroOpp : validate_opportunity coreDefault zeroOpp = .ok false := by
  rw [validate_opportunity, if_pos]
  norm_num [zeroOpp]

/-- The always-finalized observer succeeds at the first poll. -/
theorem wait_okEnv (hash : String) :
    (wait_for_confirmation okEnv.observer hash 600).1 = .ok () := by
  rw [wait_for_confirmation, waitGo, dif_pos (by omega)]
  rfl

/-- Full evaluation of the orchestrator on the sample opportunity with the
always-succeeding collaborators. -/
theorem exec_posOpp_eval :
    execute_cross_chain_arbitrage coreDefault okEnv posOpp = (.ok "0xtrade", fullSteps) :=
  exec_eq_of_all_ok coreDefault okEnv posOpp "0xtrade" "0xbridge" "0xtrade"
    validate_posOpp rfl rfl (wait_okEnv "0xbridge") rfl

/-- Claim C1: within one orchestrator call the steps run strictly in the
order Validate, SourceTrade, Bridge, ConfirmBridge, TargetTrade (the trace
is always a nonempty prefix of that sequence); a rejected validation stops
the flow before any trade or bridge call with the validation-failed error;
each later step's failure propagates as that step's typed error with no
further step begun; and a successful flow returns exactly the target
trade's reference. -/
theorem C1_execution_order (core : ArbitrageCore) (env : Env) (opp : ArbitrageOpportunity) :
    ((execute_cross_chain_arbitrage core env opp).2 <+: fullSteps ∧
     (execute_cross_chain_arbitrage core env opp).2 ≠ []) ∧
    (validate_opportunity core opp = .ok false →
      execute_cross_chain_arbitrage core env opp =
        (.error .validationFailed, [.validate])) ∧
    (∀ e, validate_opportunity core opp = .ok true →
      env.executeTrade opp.source_pool.network opp.source_pool.address
        opp.required_amount "sell" = .error e →
      execute_cross_chain_arbitrage core env opp =
        (.error e, [.validate, .sourceTrade])) ∧
    (∀ e s_tx, validate_opportunity core opp = .ok true →
      env.executeTrade opp.source_pool.network opp.source_pool.address
        opp.required_amount "sell" = .ok s_tx →
      env.bridgeTokens opp.source_pool.network opp.target_pool.network
        opp.required_amount = .error e →
      execute_cross_chain_arbitrage core env opp =
        (.error e, [.validate, .sourceTrade, .bridge])) ∧
    (∀ e s_tx b_tx, validate_opportunity core opp = .ok true →
      env.executeTrade opp.source_pool.network opp.source_pool.address
        opp.required_amount "sell" = .ok s_tx →
      env.bridgeTokens opp.source_pool.network opp.target_pool.network
        opp.required_amount = .ok b_tx →
      (wait_for_confirmation env.observer b_tx 600).1 = .error e →
      execute_cross_chain_arbitrage core env opp =
        (.error e, [.validate, .sourceTrade, .bridge, .confirmBridge])) ∧
    (∀ e s_tx b_tx, validate_opportunity core opp = .ok true →
      env.executeTrade opp.source_pool.network opp.source_pool.address
        opp.required_amount "sell" = .ok s_tx →
      env.bridgeTokens opp.source_pool.network opp.target_pool.network
        opp.required_amount = .ok b_tx →
      (wait_for_confirmation env.observer b_tx 600).1 = .ok () →
      env.executeTrade opp.target_pool.network opp.target_pool.address
        opp.required_amount "buy" = .error e →
      execute_cross_chain_arbitrage core env opp = (.error e, fullSteps)) ∧
    (∀ tx, (execute_cross_chain_arbitrage core env opp).1 = .ok tx →
      env.executeTrade opp.target_pool.network opp.target_pool.address
        opp.required_amount "buy" = .ok tx ∧
      (execute_cross_chain_arbitrage core env opp).2 = fullSteps) := by
  refine ⟨⟨exec_trace_ordered core env opp, exec_trace_ne_nil core env opp⟩,
    exec_eq_of_val_false core env opp,
    fun e hv hs => exec_eq_of_src_error core env opp e hv hs,
    fun e s_tx hv hs hb => exec_eq_of_bridge_error core env opp e s_tx hv hs hb,
    fun e s_tx b_tx hv hs hb hc => exec_eq_of_confirm_error core env opp e s_tx b_tx hv hs hb hc,
    fun e s_tx b_tx hv hs hb hc ht => exec_eq_of_target_error core env opp e s_tx b_tx hv hs hb hc ht,
    fun tx htx => exec_ok_inv core env opp tx htx⟩

/-- Claim C1 witness: the ordering, the rejected flow, the failing source
trade and the fully successful flow, all at concrete inputs. -/
theorem C1_execution_order_witness :
    (execute_cross_chain_arbitrage coreDefault okEnv posOpp).2 <+: fullSteps ∧
    execute_cross_chain_arbitrage coreDefault okEnv zeroOpp =
      (.error .validationFailed, [.validate]) ∧
    execute_cross_chain_arbitrage coreDefault errEnv posOpp =
      (.error (.collaboratorFailure "venue down"), [.validate, .sourceTrade]) ∧
    (okEnv.executeTrade posOpp.target_pool.network posOpp.target_pool.address
        posOpp.required_amount "buy" = .ok "0xtrade" ∧
     (execute_cross_chain_arbitrage coreDefault okEnv posOpp).2 = fullSteps) :=
  ⟨(C1_execution_order coreDefault okEnv posOpp).1.1,
   (C1_execution_order coreDefault okEnv zeroOpp).2.1 validate_zeroOpp,
   (C1_execution_order coreDefault errEnv posOpp).2.2.1
     (.collaboratorFailure "venue down") validate_posOpp rfl,
   (C1_execution_order coreDefault okEnv posOpp).2.2.2.2.2.2 "0xtrade"
     (by rw [exec_posOpp_eval])⟩

/-- Claim C3: with a Chain Observer that never reports finality, the
confirmation wait ends in the timeout error exactly when the configured
600-second deadline has elapsed — 60 polls at the fixed 10-second interval
— and never before the deadline; the orchestrator performs the bridge step
at most once in any flow, so the bridge is never retried after the
timeout. -/
theorem C3_confirmation_timeout :
    (∀ observer : Nat → Bool, (∀ k, observer k = false) → ∀ hash : String,
      wait_for_confirmation observer hash 600 =
        (.error .confirmationTimeout, 600, 60)) ∧
    (∀ (observer : Nat → Bool) (hash : String) (T : Nat),
      (wait_for_confirmation observer hash T).1 = .error .confirmationTimeout →
      T ≤ (wait_for_confirmation observer hash T).2.1) ∧
    (∀ (core : ArbitrageCore) (env : Env) (opp : ArbitrageOpportunity),
      (execute_cross_chain_arbitrage core env opp).2.count .bridge ≤ 1) := by
  refine ⟨?_, ?_, ?_⟩
  · intro obs hobs hash
    have h := waitGo_never_eq obs hobs 60 600 0 0 (by omega) (fun m hm => by omega)
    rw [wait_for_confirmation, h]
  · intro obs hash T h
    exact waitGo_timeout_le obs T T 0 0 (by omega) h
  · intro core env opp
    have h := (exec_trace_ordered core env opp).count_le Step.bridge
    have hfull : fullSteps.count Step.bridge = 1 := by decide
    omega

/-- Claim C3 witness: the constantly-false observer at the configured
deadline, and the at-most-one-bridge bound on a concrete flow. -/
theorem C3_confirmation_timeout_witness :
    wait_for_confirmation (fun _ => false) "0xdead" 600 =
      (.error .confirmationTimeout, 600, 60) ∧
    600 ≤ (wait_for_confirmation (fun _ => false) "0xdead" 600).2.1 ∧
    (execute_cross_chain_arbitrage coreDefault okEnv posOpp).2.count Step.bridge ≤ 1 := by
  have ha := C3_confirmation_timeout.1 (fun _ => false) (fun _ => rfl) "0xdead"
  exact ⟨ha,
    C3_confirmation_timeout.2.1 (fun _ => false) "0xdead" 600 (by rw [ha]),
    C3_confirmation_timeout.2.2 coreDefault okEnv posOpp⟩
